import Mathlib

/-!
# GDP Panel Builder: a shallow embedding

This file embeds the data pipeline of `src/streamlit_app.py` (a Streamlit
GDP dashboard) in Lean and proves the specification's claims about it.

The pipeline, as written in the source, is:

* `get_gdp_data` — reads a wide CSV table and reshapes it with
  `raw_gdp_df.melt(['Country Code'], [str(x) for x in range(1960, 2023)],
  'Year', 'GDP')`, then converts the `Year` strings back to integers with
  `pd.to_numeric`.
* the inline filter in `render_home_page` —
  `gdp_df[(isin selected_countries) & (Year <= to_year) & (from_year <= Year)]`.
* the inline growth-metric loop in `render_home_page` — for each selected
  country it takes `first_year[...]['GDP'].iat[0] / 1e9` and
  `last_year[...]['GDP'].iat[0] / 1e9`, shows `'n/a'` when
  `math.isnan(first_gdp)`, and otherwise formats `last_gdp / first_gdp`.

Modelling conventions:

* a pandas `DataFrame` cell holding a float-or-NaN is `Option ℚ`
  (`none` is NaN / a blank cell);
* pandas exceptions (`KeyError` from `melt` on absent `value_vars`,
  `IndexError` from `.iat[0]` on an empty frame) are explicit `Except`
  error values;
* `.iat[0]` returns a `numpy.float64`, so `last_gdp / first_gdp` follows
  IEEE/numpy semantics and never raises: NaN propagates, and a zero
  divisor yields a signed infinity (or NaN for `0 / 0`) with only a
  RuntimeWarning; the formatted texts `'nanx'`, `'infx'` and `'-infx'`
  produced by `f'{x:,.2f}x'` on those specials are the distinguished
  constructors `Growth.nanText`, `Growth.infText` and `Growth.negInfText`.
-/

namespace GDP

/-- `MIN_YEAR` from `get_gdp_data`. -/
def MIN_YEAR : Int := 1960

/-- `MAX_YEAR` from `get_gdp_data`. -/
def MAX_YEAR : Int := 2022

/-- One row of the raw wide-format CSV: a country code plus, for each
column label present in the table, an optional numeric cell
(`none` models a blank / NaN cell). -/
structure RawRow where
  code : String
  cell : String → Option ℚ

/-- The raw wide-format table: the list of (non-`Country Code`) column
labels actually present, and the rows.  The `Country Code` column itself
is represented structurally by `RawRow.code`. -/
structure RawTable where
  cols : List String
  rows : List RawRow

/-- Errors the load path can raise: pandas `melt` raises `KeyError` when a
requested `value_vars` column is absent, and `pd.to_numeric` raises on a
non-numeric year label. -/
inductive LoadError where
  | keyError
  | parseError
deriving DecidableEq

/-- One row of the long-format frame produced by `melt`: columns
`Country Code`, `Year` (still a string label) and `GDP`. -/
structure LongRow where
  code : String
  year : String
  gdp : Option ℚ
deriving DecidableEq

/-- `raw_gdp_df.melt(['Country Code'], value_vars, 'Year', 'GDP')`.
pandas first checks that every entry of `value_vars` is a column of the
frame and raises `KeyError` otherwise; on success it stacks, for each
value column in order, one long row per raw row. -/
def melt (t : RawTable) (valueVars : List String) : Except LoadError (List LongRow) :=
  if valueVars.all (fun v => t.cols.contains v) then
    .ok (valueVars.flatMap (fun v => t.rows.map (fun r => ⟨r.code, v, r.cell v⟩)))
  else
    .error .keyError

/-- Digit-string parsing, the semantics of `pd.to_numeric` on the year
labels produced by `str(x)` (all-decimal strings). -/
def parseNatChars (cs : List Char) : Option Nat :=
  cs.foldl (fun acc c =>
    acc.bind fun n => if c.isDigit then some (n * 10 + (c.toNat - 48)) else none) (some 0)

/-- `pd.to_numeric` applied to one `Year` label: a decimal string parses to
its integer, anything else raises. -/
def toNumeric (s : String) : Except LoadError Int :=
  if s.data.isEmpty then .error .parseError
  else
    match parseNatChars s.data with
    | some n => .ok (n : Int)
    | none => .error .parseError

/-- The normalized unit: one long row after the `Year` column has been
converted to an integer. -/
structure Obs where
  code : String
  year : Int
  gdp : Option ℚ
deriving DecidableEq

/-- `[str(x) for x in range(MIN_YEAR, MAX_YEAR + 1)]`: the year labels
passed to `melt` as `value_vars`. -/
def yearValueVars : List String :=
  (List.range' 1960 63).map (fun x => toString x)

/-- Convert one long row: parse its `Year` label. -/
def toObs (r : LongRow) : Except LoadError Obs := do
  let y ← toNumeric r.year
  pure ⟨r.code, y, r.gdp⟩

/-- `get_gdp_data` (the spec's `load_and_normalize`): melt the wide table
over the hardcoded year columns, then convert `Year` to integers. -/
def get_gdp_data (t : RawTable) : Except LoadError (List Obs) := do
  let long ← melt t yearValueVars
  long.mapM toObs

/-- The supported years as integers, `[1960, ..., 2022]`. -/
def yearInts : List Int :=
  (List.range' 1960 63).map (fun x : Nat => (x : Int))

/-- The integer a year label parses to (defaulting to 0; on the labels of
`yearValueVars` the default is never used). -/
def parsedYear (s : String) : Int :=
  match parseNatChars s.data with
  | some n => (n : Int)
  | none => 0

/-- Closed form of a successful `get_gdp_data`: one observation per
(value column, raw row) pair, in `melt`'s stacking order. -/
def obsOf (t : RawTable) : List Obs :=
  yearValueVars.flatMap (fun v => t.rows.map (fun r => ⟨r.code, parsedYear v, r.cell v⟩))

/-- The user's selection: the slider's year range and the multiselect's
country list. -/
structure Selection where
  fromYear : Int
  toYear : Int
  countries : List String

/-- The inline filter of `render_home_page`:
`gdp_df[(gdp_df['Country Code'].isin(selected_countries))
& (gdp_df['Year'] <= to_year) & (from_year <= gdp_df['Year'])]`. -/
def filter (obs : List Obs) (s : Selection) : List Obs :=
  obs.filter (fun o =>
    s.countries.contains o.code && decide (o.year ≤ s.toYear) && decide (s.fromYear ≤ o.year))

/-- `gdp_df['Country Code'].unique()`: the distinct country codes of the
observation set.  pandas returns them in first-occurrence order; only the
collection of distinct values is used below, so deduplication order is
immaterial. -/
def countries (obs : List Obs) : List String :=
  (obs.map (fun o => o.code)).dedup

/-- `if not len(countries): st.warning("Select at least one country")` —
the warning is emitted exactly when the data's distinct-country list is
empty (it does not inspect the user's selection). -/
def warningShown (obs : List Obs) : Bool :=
  (countries obs).isEmpty

/-- The growth value placed in the metric's `delta` slot: `'n/a'`, the
formatted-NaN text `'nanx'`, a formatted infinity `'infx'` / `'-infx'`,
or a genuine ratio. -/
inductive Growth where
  | na
  | nanText
  | infText
  | negInfText
  | val (q : ℚ)
deriving DecidableEq

/-- The one exception the metric loop can raise: `IndexError` from
`.iat[0]` on an empty frame.  The division itself never raises: the
operands are `numpy.float64`, for which division by zero produces an
IEEE special value, not `ZeroDivisionError`. -/
inductive RenderError where
  | indexError
deriving DecidableEq

/-- One rendered `st.metric`: its label, its `value` (the end-year GDP in
billions, `none` for NaN), its `delta` (the growth), and its delta color. -/
structure Metric where
  label : String
  value : Option ℚ
  delta : Growth
  deltaColor : String
deriving DecidableEq

/-- `first_year[first_year['Country Code'] == country]['GDP'].iat[0]`
where `first_year = gdp_df[gdp_df['Year'] == year]`: restrict to the year,
then to the country, and take the first matching row if any. -/
def lookupGdp (obs : List Obs) (year : Int) (code : String) : Option Obs :=
  ((obs.filter (fun o => o.year == year)).filter (fun o => o.code == code)).head?

/-- `last_gdp / first_gdp` on `numpy.float64` operands with a non-NaN
divisor `f`, followed by the `f'{...:,.2f}x'` formatting: a NaN dividend
propagates to `'nanx'`; a zero divisor yields `'infx'` / `'-infx'`
according to the dividend's sign (and `'nanx'` for `0 / 0`), with only a
RuntimeWarning; otherwise it is the exact quotient. -/
def divFormat (l : Option ℚ) (f : ℚ) : Growth :=
  match l with
  | none => .nanText
  | some l =>
    if f = 0 then
      if l = 0 then .nanText
      else if 0 < l then .infText
      else .negInfText
    else .val (l / f)

/-- The per-country body of the metric loop (the spec's `compute_growth`):

* `.iat[0]` on an empty lookup raises `IndexError` (start looked up first);
* `first_gdp`/`last_gdp` are the cell values divided by `1 000 000 000`
  (dividing NaN leaves NaN);
* `math.isnan(first_gdp)` selects the `'n/a'` branch with color `'off'`;
* otherwise the code formats the numpy division `last_gdp / first_gdp`
  (`divFormat`), which never raises. -/
def compute_growth (obs : List Obs) (code : String) (from_year to_year : Int) :
    Except RenderError Metric :=
  match lookupGdp obs from_year code with
  | none => .error .indexError
  | some rowF =>
    match lookupGdp obs to_year code with
    | none => .error .indexError
    | some rowT =>
      let first_gdp : Option ℚ := rowF.gdp.map (fun q => q / 1000000000)
      let last_gdp : Option ℚ := rowT.gdp.map (fun q => q / 1000000000)
      match first_gdp with
      | none => .ok ⟨code ++ " GDP", last_gdp, .na, "off"⟩
      | some f => .ok ⟨code ++ " GDP", last_gdp, divFormat last_gdp f, "normal"⟩

instance {ε α : Type} [DecidableEq ε] [DecidableEq α] : DecidableEq (Except ε α)
  | .ok x, .ok y =>
    match decEq x y with
    | .isTrue h => .isTrue (h ▸ rfl)
    | .isFalse h => .isFalse (fun hh => h (Except.ok.inj hh))
  | .error x, .error y =>
    match decEq x y with
    | .isTrue h => .isTrue (h ▸ rfl)
    | .isFalse h => .isFalse (fun hh => h (Except.error.inj hh))
  | .ok _, .error _ => .isFalse (fun hh => Except.noConfusion hh)
  | .error _, .ok _ => .isFalse (fun hh => Except.noConfusion hh)

/-- A raw table carrying every supported year column, with one row. -/
def demoTable : RawTable :=
  ⟨yearValueVars, [⟨"DEU", fun _ => some 100⟩]⟩

/-- A raw table whose year columns stop at 1960: the columns
`"1961", ..., "2022"` of the supported range are missing. -/
def truncatedTable : RawTable :=
  ⟨["Country Name", "1960"], [⟨"DEU", fun _ => some 100⟩]⟩

/-- Observations with both endpoint values present and a nonzero start. -/
def obsGood : List Obs :=
  [⟨"DEU", 1960, some 100⟩, ⟨"DEU", 1961, some 150⟩]

/-- Observations for a country that has a start-year row but no end-year
row: the 1961 endpoint observation is absent. -/
def obsMissingEnd : List Obs :=
  [⟨"CCC", 1960, some 1⟩]

/-- Observations whose end-year value is NaN while the start is present. -/
def obsNanEnd : List Obs :=
  [⟨"BBB", 1960, some 1⟩, ⟨"BBB", 1961, none⟩]

/-- A one-observation data set. -/
def obsSingle : List Obs :=
  [⟨"DEU", 1960, some 100⟩]

/-- A selection whose country set is empty. -/
def emptySel : Selection :=
  ⟨1965, 1970, []⟩

/-- Claim C4: membership in the filter output is exactly membership in the
input together with the year lying in the selected range and the country
lying in the selected set; in particular the output is a subset of the
input and nothing outside the selection appears. -/
theorem filter_exact (obs : List Obs) (s : Selection) (o : Obs) :
    o ∈ filter obs s ↔
      o ∈ obs ∧ s.fromYear ≤ o.year ∧ o.year ≤ s.toYear ∧ o.code ∈ s.countries := by
  simp only [filter, List.mem_filter, Bool.and_eq_true, decide_eq_true_eq,
    List.elem_iff]
  tauto

/-- Claim C6: filtering an already-filtered result with the same selection
returns the same list. -/
theorem filter_idempotent (obs : List Obs) (s : Selection) :
    filter (filter obs s) s = filter obs s := by
  simp [filter, List.filter_filter]

/-- Claim C10: the filter keeps observations in the relative order of the
input sequence (its output is a sublist of its input). -/
theorem filter_preserves_order (obs : List Obs) (s : Selection) :
    List.Sublist (filter obs s) obs :=
  List.filter_sublist obs

/-- Claim C7, counterexample: with a nonempty data set and an empty country
selection, the filter result is empty but no warning is shown — the
warning condition `if not len(countries)` inspects the data's distinct
country list, not the user's selection. -/
theorem empty_selection_no_warning :
    filter obsSingle emptySel = [] ∧ warningShown obsSingle = false := by
  constructor <;> rfl

/-- Claim C7, amended: an empty country selection yields an empty filter
result without an error, and the upstream warning is shown exactly when
the data's own country list is empty (an empty data set), independent of
the selection. -/
theorem filter_empty_countries_and_warning (obs : List Obs) (fy ty : Int) :
    filter obs ⟨fy, ty, []⟩ = [] ∧ (warningShown obs = true ↔ obs = []) := by
  constructor
  · simp [filter]
  · simp [warningShown, countries, List.isEmpty_iff, List.dedup_eq_nil]

/-- `mapM` into `Except` succeeds pointwise: if `f` returns `.ok (g a)` on
every element, `mapM f` returns the mapped list. -/
lemma mapM_ok_of_map {α β ε : Type} (l : List α) (f : α → Except ε β) (g : α → β)
    (h : ∀ a ∈ l, f a = .ok (g a)) : l.mapM f = Except.ok (l.map g) := by
  induction l with
  | nil => rfl
  | cons a t ih =>
    have ha := h a (List.mem_cons_self a t)
    have iht := ih (fun x hx => h x (List.mem_cons_of_mem _ hx))
    simp only [List.mapM_cons, ha, iht, List.map_cons]
    rfl

/-- Every hardcoded year label parses back to its integer. -/
lemma toNumeric_of_mem_vars : ∀ v ∈ yearValueVars, toNumeric v = Except.ok (parsedYear v) := by
  decide

/-- Parsing the hardcoded year labels yields `[1960, ..., 2022]`. -/
lemma map_parsedYear : yearValueVars.map parsedYear = yearInts := by
  decide

/-- The supported years are pairwise distinct. -/
lemma yearInts_nodup : yearInts.Nodup := by
  decide

/-- Membership in the supported years is exactly the `[MIN_YEAR, MAX_YEAR]`
interval. -/
lemma mem_yearInts {y : Int} : y ∈ yearInts ↔ MIN_YEAR ≤ y ∧ y ≤ MAX_YEAR := by
  constructor
  · intro hy
    obtain ⟨x, hx, rfl⟩ := List.mem_map.mp hy
    obtain ⟨i, hi, rfl⟩ := List.mem_range'.mp hx
    simp only [MIN_YEAR, MAX_YEAR]
    omega
  · rintro ⟨h1, h2⟩
    simp only [MIN_YEAR] at h1
    simp only [MAX_YEAR] at h2
    apply List.mem_map.mpr
    exact ⟨y.toNat, List.mem_range'.mpr ⟨y.toNat - 1960, by omega, by omega⟩, by omega⟩

/-- When every hardcoded year column is present, `get_gdp_data` succeeds
and produces exactly the closed-form observation list `obsOf`. -/
lemma get_gdp_data_eq_obsOf {t : RawTable} (h : ∀ v ∈ yearValueVars, v ∈ t.cols) :
    get_gdp_data t = .ok (obsOf t) := by
  have hall : (yearValueVars.all fun v => t.cols.contains v) = true := by
    rw [List.all_eq_true]
    simpa using h
  have hmelt : melt t yearValueVars =
      .ok (yearValueVars.flatMap fun v => t.rows.map fun r => ⟨r.code, v, r.cell v⟩) := by
    unfold melt
    rw [if_pos hall]
  have hmap : (yearValueVars.flatMap fun v =>
      t.rows.map fun r => LongRow.mk r.code v (r.cell v)).mapM toObs =
      Except.ok ((yearValueVars.flatMap fun v =>
        t.rows.map fun r => LongRow.mk r.code v (r.cell v)).map
          fun r => Obs.mk r.code (parsedYear r.year) r.gdp) := by
    apply mapM_ok_of_map
    intro r hr
    obtain ⟨v, hv, hrv⟩ := List.mem_flatMap.mp hr
    obtain ⟨row, _, rfl⟩ := List.mem_map.mp hrv
    simp only [toObs, toNumeric_of_mem_vars v hv]
    rfl
  show (melt t yearValueVars >>= fun long => long.mapM toObs) = .ok (obsOf t)
  rw [hmelt]
  show (yearValueVars.flatMap fun v =>
      t.rows.map fun r => LongRow.mk r.code v (r.cell v)).mapM toObs = .ok (obsOf t)
  rw [hmap, obsOf, List.map_flatMap]
  simp only [List.map_map]
  rfl

/-- A successful `get_gdp_data` can only have produced `obsOf`. -/
lemma get_gdp_data_ok_inv {t : RawTable} {obs : List Obs}
    (h : get_gdp_data t = .ok obs) : obs = obsOf t := by
  by_cases hall : (yearValueVars.all fun v => t.cols.contains v) = true
  · have := get_gdp_data_eq_obsOf
      (fun v hv => List.elem_iff.mp (List.all_eq_true.mp hall v hv))
    rw [this] at h
    exact (Except.ok.inj h).symm
  · exfalso
    have hmelt : melt t yearValueVars = .error .keyError := by
      unfold melt
      rw [if_neg hall]
    have : get_gdp_data t = .error .keyError := by
      show (melt t yearValueVars >>= fun long => long.mapM toObs) = _
      rw [hmelt]
      rfl
    rw [this] at h
    exact Except.noConfusion h

/-- One year-block of `obsOf` contributes `countP (code = c)` when its year
matches and nothing otherwise. -/
lemma countP_rowblock (rows : List RawRow) (f : RawRow → Option ℚ) (c : String) (z y : Int) :
    ((rows.map fun r => Obs.mk r.code z (f r)).countP fun o => o.code == c && o.year == y)
      = if z = y then rows.countP (fun r => r.code == c) else 0 := by
  rw [List.countP_map]
  by_cases hz : z = y
  · subst hz
    rw [if_pos rfl]
    apply List.countP_congr
    intro r _
    simp [Function.comp]
  · rw [if_neg hz]
    apply List.countP_eq_zero.mpr
    intro r _
    simp [Function.comp, hz]

/-- Summing a constant guarded by a decidable test counts the hits. -/
lemma sum_map_ite {α : Type} (l : List α) (p : α → Prop) [DecidablePred p] (K : ℕ) :
    (l.map fun a => if p a then K else 0).sum = K * l.countP (fun a => decide (p a)) := by
  induction l with
  | nil => simp
  | cons a t ih =>
    by_cases hp : p a
    · simp [List.countP_cons, hp, ih]
      ring
    · simp [List.countP_cons, hp, ih]

/-- Claim C3: for a raw table carrying the country column and every year
column of the supported range, with one row per country, the load emits
exactly one observation per (country, year) pair of the supported range —
no duplicates and none dropped. -/
theorem load_unique_observation (t : RawTable)
    (hcols : ∀ v ∈ yearValueVars, v ∈ t.cols)
    (hnodup : (t.rows.map fun r => r.code).Nodup)
    (c : String) (hc : c ∈ t.rows.map fun r => r.code)
    (y : Int) (hy : MIN_YEAR ≤ y ∧ y ≤ MAX_YEAR) :
    ∃ L, get_gdp_data t = .ok L ∧
      (L.countP fun o => o.code == c && o.year == y) = 1 := by
  refine ⟨obsOf t, get_gdp_data_eq_obsOf hcols, ?_⟩
  have hrows : (t.rows.countP fun r => r.code == c) = 1 := by
    have h1 : (t.rows.map fun r => r.code).count c = 1 :=
      List.count_eq_one_of_mem hnodup hc
    rw [List.count_eq_countP, List.countP_map] at h1
    exact h1
  rw [obsOf, List.countP_flatMap]
  have hblock : ∀ v ∈ yearValueVars,
      ((List.countP fun o => o.code == c && o.year == y) ∘
        fun v => t.rows.map fun r => Obs.mk r.code (parsedYear v) (r.cell v)) v
      = if parsedYear v = y then 1 else 0 := by
    intro v _
    show (t.rows.map fun r => Obs.mk r.code (parsedYear v) (r.cell v)).countP _ = _
    rw [countP_rowblock t.rows (fun r => r.cell v) c (parsedYear v) y, hrows]
  rw [List.map_congr_left hblock, sum_map_ite yearValueVars (fun v => parsedYear v = y) 1,
    one_mul]
  have hcount : yearInts.count y = 1 :=
    List.count_eq_one_of_mem yearInts_nodup (mem_yearInts.mpr hy)
  rw [← map_parsedYear, List.count_eq_countP, List.countP_map] at hcount
  rw [← hcount]
  apply List.countP_congr
  intro v _
  show decide (parsedYear v = y) = true ↔ ((fun x => x == y) ∘ parsedYear) v = true
  by_cases h : parsedYear v = y <;> simp [h, Function.comp]

/-- Witness for claim C3 at a concrete table with all year columns and a
single country row. -/
theorem load_unique_observation_witness :
    ∃ L, get_gdp_data demoTable = .ok L ∧
      (L.countP fun o => o.code == "DEU" && o.year == (1975 : Int)) = 1 :=
  load_unique_observation demoTable (fun _ hv => hv) (by simp [demoTable])
    "DEU" (by simp [demoTable]) 1975 (by decide)

/-- Claim C8, counterexample: a source table whose year columns stop at
1960 (columns `1961`–`2022` of the supported range are missing) makes the
load fail fatally with pandas' `KeyError` — there is no silent per-year
no-op. -/
theorem load_missing_column_fails :
    get_gdp_data truncatedTable = .error LoadError.keyError := rfl

/-- Claim C8, amended: a source table missing any year column of the
supported range makes `get_gdp_data` raise `KeyError` (pandas `melt`
checks its `value_vars` up front), emitting no observation at all. -/
theorem load_missing_year_column_raises (t : RawTable) (v : String)
    (hv : v ∈ yearValueVars) (hnot : v ∉ t.cols) :
    get_gdp_data t = .error LoadError.keyError := by
  have hall : ¬((yearValueVars.all fun w => t.cols.contains w) = true) := by
    intro hforall
    exact hnot (List.elem_iff.mp (List.all_eq_true.mp hforall v hv))
  have hmelt : melt t yearValueVars = .error .keyError := by
    unfold melt
    rw [if_neg hall]
  show (melt t yearValueVars >>= fun long => long.mapM toObs) = _
  rw [hmelt]
  rfl

/-- Witness for the amended claim C8: the truncated table is missing the
`"1961"` column. -/
theorem load_missing_year_column_raises_witness :
    get_gdp_data truncatedTable = .error LoadError.keyError :=
  load_missing_year_column_raises truncatedTable "1961" (by decide) (by decide)

/-- Claim C9: every observation a successful load produces has its year in
the hardcoded `[MIN_YEAR, MAX_YEAR]` range; columns outside it are never
consulted because `melt` receives exactly the labels of that range. -/
theorem load_year_in_range (t : RawTable) (L : List Obs)
    (h : get_gdp_data t = .ok L) (o : Obs) (ho : o ∈ L) :
    MIN_YEAR ≤ o.year ∧ o.year ≤ MAX_YEAR := by
  have hL := get_gdp_data_ok_inv h
  subst hL
  obtain ⟨v, hv, hmem⟩ := List.mem_flatMap.mp ho
  obtain ⟨r, _, rfl⟩ := List.mem_map.mp hmem
  apply mem_yearInts.mp
  rw [← map_parsedYear]
  exact List.mem_map.mpr ⟨v, hv, rfl⟩

/-- Witness for claim C9 at the concrete full table. -/
theorem load_year_in_range_witness :
    MIN_YEAR ≤ (1960 : Int) ∧ (1960 : Int) ≤ MAX_YEAR :=
  load_year_in_range demoTable (obsOf demoTable)
    (get_gdp_data_eq_obsOf fun _ hv => hv) ⟨"DEU", 1960, some 100⟩
    (List.mem_flatMap.mpr ⟨"1960", by decide,
      List.mem_map.mpr ⟨⟨"DEU", fun _ => some 100⟩, List.mem_singleton.mpr rfl, rfl⟩⟩)

/-- When both lookups succeed and the start cell is NaN, the metric shows
`'n/a'` with color `'off'`. -/
lemma compute_growth_start_nan {obs : List Obs} {c : String} {fy ty : Int} {rF rT : Obs}
    (h1 : lookupGdp obs fy c = some rF) (h2 : lookupGdp obs ty c = some rT)
    (hF : rF.gdp = none) :
    compute_growth obs c fy ty =
      .ok ⟨c ++ " GDP", rT.gdp.map (fun q => q / 1000000000), .na, "off"⟩ := by
  simp [compute_growth, h1, h2, hF]

/-- When both lookups succeed and the start cell is a number, the metric
carries the formatted numpy division as its delta and never errors. -/
lemma compute_growth_some {obs : List Obs} {c : String} {fy ty : Int} {rF rT : Obs}
    (h1 : lookupGdp obs fy c = some rF) (h2 : lookupGdp obs ty c = some rT)
    (s : ℚ) (hF : rF.gdp = some s) :
    compute_growth obs c fy ty =
      .ok ⟨c ++ " GDP", rT.gdp.map (fun q => q / 1000000000),
        divFormat (rT.gdp.map (fun q => q / 1000000000)) (s / 1000000000), "normal"⟩ := by
  simp [compute_growth, h1, h2, hF]

/-- The formatted numpy division never yields the `'n/a'` sentinel: that
text is produced only by the `isnan` branch on the start value. -/
lemma divFormat_ne_na (l : Option ℚ) (f : ℚ) : divFormat l f ≠ Growth.na := by
  cases l with
  | none => simp [divFormat]
  | some x =>
    simp only [divFormat]
    split_ifs <;> simp

/-- When both lookups succeed and both cells are numbers with a nonzero
start, the delta is the genuine ratio `end / start` (the two `/ 1e9`
scalings cancel). -/
lemma compute_growth_val {obs : List Obs} {c : String} {fy ty : Int} {rF rT : Obs}
    (h1 : lookupGdp obs fy c = some rF) (h2 : lookupGdp obs ty c = some rT)
    (s e : ℚ) (hF : rF.gdp = some s) (hs : s ≠ 0) (hT : rT.gdp = some e) :
    compute_growth obs c fy ty =
      .ok ⟨c ++ " GDP", some (e / 1000000000), .val (e / s), "normal"⟩ := by
  have h9 : (1000000000 : ℚ) ≠ 0 := by norm_num
  have hdiv : e / 1000000000 / (s / 1000000000) = e / s := by
    field_simp
  rw [compute_growth_some h1 h2 s hF]
  simp [hT, divFormat, div_eq_zero_iff, hs, h9, hdiv]

/-- Claim C1, counterexample: `"CCC"` is present in the observation set and
both years are in the supported range, yet `compute_growth` raises
(`IndexError` from `.iat[0]` on an empty frame) because the end-year
observation is absent — the function is not total. -/
theorem compute_growth_missing_end_raises :
    compute_growth obsMissingEnd "CCC" 1960 1961 = .error .indexError := rfl

/-- Claim C1, amended: `compute_growth` returns a metric and never raises
whenever both endpoint observations are present — including when either
value is the missing marker or the start value is zero (numpy division
yields an IEEE special that is formatted, not raised); an absent endpoint
observation raises `IndexError` instead. -/
theorem compute_growth_total_of_present (obs : List Obs) (c : String) (fy ty : Int)
    (rF rT : Obs)
    (h1 : lookupGdp obs fy c = some rF) (h2 : lookupGdp obs ty c = some rT) :
    ∃ m, compute_growth obs c fy ty = .ok m := by
  cases hF : rF.gdp with
  | none => exact ⟨_, compute_growth_start_nan h1 h2 hF⟩
  | some s => exact ⟨_, compute_growth_some h1 h2 s hF⟩

/-- Witness for the amended claim C1 at a concrete input. -/
theorem compute_growth_total_of_present_witness :
    ∃ m, compute_growth obsGood "DEU" 1960 1961 = .ok m :=
  compute_growth_total_of_present obsGood "DEU" 1960 1961
    ⟨"DEU", 1960, some 100⟩ ⟨"DEU", 1961, some 150⟩ rfl rfl

/-- Claim C2, counterexample: with the start value present and nonzero and
the end value NaN, the metric's delta is the formatted NaN text, not the
`'n/a'` sentinel — a NaN is passed through as a computed ratio. -/
theorem compute_growth_nan_passthrough :
    compute_growth obsNanEnd "BBB" 1960 1961 =
      .ok ⟨"BBB GDP", none, .nanText, "normal"⟩ :=
  @compute_growth_some obsNanEnd "BBB" 1960 1961 ⟨"BBB", 1960, some 1⟩
    ⟨"BBB", 1961, none⟩ rfl rfl 1 rfl

/-- Claim C2, amended: given both endpoint observations exist, the delta is
`'n/a'` exactly when the start value is NaN — so a zero start (values
present) yields a formatted infinity or NaN, never `'n/a'` — and a NaN
end value with a numeric start yields the formatted-NaN text passed
through the division. -/
theorem compute_growth_na_iff_start_missing (obs : List Obs) (c : String) (fy ty : Int)
    (rF rT : Obs)
    (h1 : lookupGdp obs fy c = some rF) (h2 : lookupGdp obs ty c = some rT) :
    ∃ m, compute_growth obs c fy ty = .ok m ∧ (m.delta = .na ↔ rF.gdp = none) ∧
      (rF.gdp ≠ none → rT.gdp = none → m.delta = .nanText) := by
  cases hF : rF.gdp with
  | none =>
    exact ⟨_, compute_growth_start_nan h1 h2 hF, by simp, by simp [hF]⟩
  | some s =>
    refine ⟨_, compute_growth_some h1 h2 s hF, ?_, ?_⟩
    · simp only [hF]
      constructor
      · intro h
        exact absurd h (divFormat_ne_na _ _)
      · intro h
        exact Option.noConfusion h
    · intro _ hT
      simp [hT, divFormat]

/-- Witness for the amended claim C2 at a concrete input. -/
theorem compute_growth_na_iff_start_missing_witness :
    ∃ m, compute_growth obsNanEnd "BBB" 1960 1961 = .ok m ∧
      (m.delta = Growth.na ↔ (Obs.mk "BBB" 1960 (some 1)).gdp = none) ∧
      ((Obs.mk "BBB" 1960 (some 1)).gdp ≠ none → (Obs.mk "BBB" 1961 none).gdp = none →
        m.delta = Growth.nanText) :=
  compute_growth_na_iff_start_missing obsNanEnd "BBB" 1960 1961
    ⟨"BBB", 1960, some 1⟩ ⟨"BBB", 1961, none⟩ rfl rfl

/-- Claim C5: when both endpoint observations exist, both values are
numbers and the start is nonzero, the delta is the ratio `end / start`. -/
theorem compute_growth_ratio_eq_div (obs : List Obs) (c : String) (fy ty : Int)
    (rF rT : Obs) (s e : ℚ)
    (h1 : lookupGdp obs fy c = some rF) (h2 : lookupGdp obs ty c = some rT)
    (hF : rF.gdp = some s) (hT : rT.gdp = some e) (hs : s ≠ 0) :
    compute_growth obs c fy ty =
      .ok ⟨c ++ " GDP", some (e / 1000000000), .val (e / s), "normal"⟩ :=
  compute_growth_val h1 h2 s e hF hs hT

/-- Witness for claim C5: start value `100`, end value `150`, ratio `3/2`. -/
theorem compute_growth_ratio_eq_div_witness :
    compute_growth obsGood "DEU" 1960 1961 =
      .ok ⟨"DEU GDP", some (150 / 1000000000), .val (3 / 2), "normal"⟩ := by
  have h := compute_growth_ratio_eq_div obsGood "DEU" 1960 1961
    ⟨"DEU", 1960, some 100⟩ ⟨"DEU", 1961, some 150⟩ 100 150 rfl rfl rfl rfl (by norm_num)
  rw [show (150 : ℚ) / 100 = 3 / 2 by norm_num] at h
  exact h

end GDP
